import Mathlib

/-!
Verification of the execution-safety core of `safe-ai-util`.

The development shallowly embeds the Rust sources:
  * `src/executor.rs`  — `Executor::execute_raw`
  * `src/commands/python.rs` — the venv / pip / pytest flows
    (`execute_venv`, `execute_pip`, `execute_run`, `guard_remove_venv`,
    `resolve_venv_python`, `venv_bin_dir`, `default_python`)

Filesystem paths are modelled as the (already normalized) component
sequences that `std::path::Path::components` yields; the filesystem is the
set of existing paths; child-process spawns and the dry-run output line
are recorded as events in a trace, and OS behaviour (`which` lookups,
spawn results, the target platform) is an oracle structure.  `tracing`
log lines (`info!`/`warn!`) are pure observability and are not modelled.
-/

namespace SafeAiUtil

/-- A single component of a normalized path, mirroring
`std::path::Component` (we merge `Prefix` into `rootDir` since only the
Unix cases are exercised).  An `FsPath` holds the sequence produced by
`Path::components()`, where repeated separators and interior `.` have
already been normalized away. -/
inductive Component where
  | rootDir : Component
  | curDir : Component
  | parentDir : Component
  | normal : String → Component
deriving DecidableEq, Repr

/-- A filesystem path: the normalized component sequence of a
`std::path::Path` / `PathBuf`. -/
structure FsPath where
  components : List Component
deriving DecidableEq, Repr

/-- `PathBuf::push` of one normal component (`p.push(name)` for a plain
name). -/
def pushComponent (p : FsPath) (name : String) : FsPath :=
  ⟨p.components ++ [Component.normal name]⟩

/-- `Path::file_name().and_then(|s| s.to_str())`: the final component if
it is a `Normal` component, `none` when the path terminates in `..`, in
the root, or is empty.  Components are `String`s, hence always valid
UTF-8, so `to_str` never fails in the model. -/
def fileName (p : FsPath) : Option String :=
  match p.components.getLast? with
  | some (Component.normal s) => some s
  | _ => none

/-- Render a path back to the string form handed to the executor
(`to_string_lossy`), Unix-style. -/
def renderPath (p : FsPath) : String :=
  match p.components with
  | Component.rootDir :: rest =>
      "/" ++ String.intercalate "/" (rest.map renderComponent)
  | cs => String.intercalate "/" (cs.map renderComponent)
where
  renderComponent : Component → String
  | Component.rootDir => "/"
  | Component.curDir => "."
  | Component.parentDir => ".."
  | Component.normal s => s

/-- The filesystem: the set of currently existing paths. -/
abbrev FileSystem := List FsPath

/-- `Path::exists()`. -/
def pathExists (fs : FileSystem) (p : FsPath) : Bool :=
  List.any fs (fun q => decide (q = p))

/-- `std::fs::remove_dir_all`: deletes the directory and everything
below it (every existing path of which it is a prefix). -/
def removeDirAll (fs : FileSystem) (p : FsPath) : FileSystem :=
  List.filter (fun q => !(decide (p.components <+: q.components))) fs

/-- Observable side effects of the core: a process spawn (with the
working directory the child was given, `none` = inherited), the
`DRY RUN:` line printed by the executor, and a recursive directory
deletion. -/
inductive Event where
  | spawn : String → List String → Option String → Event
  | dryRunLine : String → List String → Event
  | fsRemove : FsPath → Event
deriving DecidableEq, Repr

/-- The world an operation acts on: the filesystem plus the trace of
side effects so far. -/
structure World where
  fs : FileSystem
  events : List Event
deriving DecidableEq, Repr

/-- Append one event to the trace. -/
def World.emit (w : World) (e : Event) : World :=
  { w with events := w.events ++ [e] }

/-- Modelled from the spec: the configuration value (`crate::config` is
not under `src/`; the spec gives its two fields read by the core:
`dry_run: bool` and `working_directory: optional path`, immutable after
load).  `dry_run` corresponds to `config.safety.dry_run` in
`executor.rs`. -/
structure Config where
  dry_run : Bool
  working_directory : Option String
deriving DecidableEq, Repr

/-- The OS oracle: which programs the search path resolves
(`which::which`), what a spawn of a program yields
(`none` = the spawn itself failed; `some code` = the process ran and
`code : Option Int` is its exit code, `none` for abnormal termination),
and whether the target platform is Windows (`cfg!(target_os =
"windows")`). -/
structure Os where
  onPath : String → Bool
  spawnResult : String → List String → Option (Option Int)
  isWindows : Bool

/-- The failure classifications produced by the embedded code
(`anyhow!` / `bail!` error values). -/
inductive Err where
  | noCommand : Err
  | commandNotFound : String → Err
  | spawnFailed : Err
  | commandFailed : Option Int → Err
  | refuseRemove : FsPath → Err
  | noVenv : String → Err
  | requirementsNotFound : String → Err
  | venvPythonNotFound : FsPath → Err
deriving DecidableEq, Repr

/-- `ExitStatus::success()`: the process exited with code 0. -/
def statusSuccess (code : Option Int) : Bool :=
  decide (code = some 0)

/-- Spawn the process and map its status, the tail of
`Executor::execute_raw` (`executor.rs` lines 44-65): record the spawn
(with the configured working directory), then map a spawn-level OS error
to `spawnFailed` and a non-success exit status to `commandFailed`. -/
def spawnAndWait (cfg : Config) (os : Os) (w : World)
    (program : String) (args : List String) : Except Err Unit × World :=
  let w := w.emit (Event.spawn program args cfg.working_directory)
  match os.spawnResult program args with
  | none => (Except.error Err.spawnFailed, w)
  | some code =>
      if statusSuccess code then (Except.ok (), w)
      else (Except.error (Err.commandFailed code), w)

/-- `Executor::execute_raw` (`executor.rs` lines 23-66): reject an empty
argument list; under `dry_run` print the `DRY RUN:` line and succeed;
otherwise require the command on the search path, then spawn. -/
def executeRaw (cfg : Config) (os : Os) (w : World)
    (args : List String) : Except Err Unit × World :=
  match args with
  | [] => (Except.error Err.noCommand, w)
  | command :: commandArgs =>
      if cfg.dry_run then
        (Except.ok (), w.emit (Event.dryRunLine command commandArgs))
      else if !os.onPath command then
        (Except.error (Err.commandNotFound command), w)
      else
        spawnAndWait cfg os w command commandArgs

/-- Rust `Path::is_absolute` on the rendered program string (Unix: the
path has a root). -/
def isAbsoluteProgram (s : String) : Bool :=
  s.startsWith "/"

/-- Modelled from the spec: `Executor::execute_secure` is called from
`commands/python.rs` but its definition is not under `src/`.  Per the
spec it has the same contract as `execute_raw` — identical dry-run,
working-directory and exit-code semantics — except that a `program`
which is an absolute interpreter path (already validated by the caller)
skips the redundant search-path lookup, while a bare command name is
still validated against the search path. -/
def executeSecure (cfg : Config) (os : Os) (w : World)
    (program : String) (args : List String) : Except Err Unit × World :=
  if cfg.dry_run then
    (Except.ok (), w.emit (Event.dryRunLine program args))
  else if !isAbsoluteProgram program && !os.onPath program then
    (Except.error (Err.commandNotFound program), w)
  else
    spawnAndWait cfg os w program args

/-- `venv_bin_dir` (`python.rs` lines 324-332): `Scripts` on Windows,
`bin` elsewhere. -/
def venv_bin_dir (isWindows : Bool) (venvPath : FsPath) : FsPath :=
  if isWindows then pushComponent venvPath "Scripts"
  else pushComponent venvPath "bin"

/-- `resolve_venv_python` (`python.rs` lines 334-349): `python.exe`
under `Scripts` on Windows; elsewhere prefer `bin/python` when it exists
on disk, falling back to `bin/python3`.  A total function: it only
inspects the filesystem and spawns nothing. -/
def resolve_venv_python (isWindows : Bool) (fs : FileSystem)
    (venv : FsPath) : FsPath :=
  let bin := venv_bin_dir isWindows venv
  if isWindows then pushComponent bin "python.exe"
  else
    let candidate := pushComponent bin "python"
    if pathExists fs candidate then candidate
    else pushComponent bin "python3"

/-- `default_python` (`python.rs` lines 315-322): `python3` when the
search path resolves it, else `python`. -/
def default_python (os : Os) : String :=
  if os.onPath "python3" then "python3" else "python"

/-- `guard_remove_venv` (`python.rs` lines 351-370): nothing to do when
the directory does not exist; when the final path segment is a readable
name other than `.venv` and `force` is unset, refuse before any
mutation; otherwise recursively delete the directory (`remove_dir_all`
is modelled as succeeding on an existing path).  When `file_name()`
yields no name the guard body is skipped and deletion proceeds. -/
def guard_remove_venv (w : World) (venvDir : FsPath) (force : Bool) :
    Except Err Unit × World :=
  if !pathExists w.fs venvDir then (Except.ok (), w)
  else
    let doRemove : Except Err Unit × World :=
      (Except.ok (),
        { fs := removeDirAll w.fs venvDir
          events := w.events ++ [Event.fsRemove venvDir] })
    match fileName venvDir with
    | some name =>
        if name ≠ ".venv" && !force then
          (Except.error (Err.refuseRemove venvDir), w)
        else doRemove
    | none => doRemove

/-- The argument vector `ensure` builds for venv creation
(`python.rs` lines 192-196): `-m venv [--prompt=NAME] PATH`. -/
def venvCreateArgs (prompt : Option String) (venvPath : FsPath) :
    List String :=
  ["-m", "venv"] ++
    (match prompt with
     | some p => ["--prompt=" ++ p]
     | none => []) ++
    [renderPath venvPath]

/-- The `venv ensure` flow (`python.rs` lines 176-201): if the directory
exists and `recreate` is unset, report success and stop; if it exists
and `recreate` is set, first run the removal guard with `force = true`,
then (as in the absent case) invoke the chosen interpreter through
`execute_secure` to create the environment. -/
def venvEnsure (cfg : Config) (os : Os) (w : World) (venvPath : FsPath)
    (python : String) (recreate : Bool) (prompt : Option String) :
    Except Err Unit × World :=
  let create (w : World) : Except Err Unit × World :=
    executeSecure cfg os w python (venvCreateArgs prompt venvPath)
  if pathExists w.fs venvPath then
    if recreate then
      match guard_remove_venv w venvPath true with
      | (Except.error e, w') => (Except.error e, w')
      | (Except.ok _, w') => create w'
    else (Except.ok (), w)
  else create w

/-- The `venv remove` flow (`python.rs` lines 202-208): delegates to
`guard_remove_venv` with the user's `force` flag.  The configuration is
in scope through the executor but is never consulted on this path. -/
def venvRemove (_cfg : Config) (w : World) (venvPath : FsPath)
    (force : Bool) : Except Err Unit × World :=
  guard_remove_venv w venvPath force

/-- Sequence two fallible steps, threading the world: the `?` operator
on consecutive `execute_secure` calls. -/
def andThen (r : Except Err Unit × World)
    (k : World → Except Err Unit × World) : Except Err Unit × World :=
  match r with
  | (Except.error e, w) => (Except.error e, w)
  | (Except.ok _, w) => k w

/-- The `pip install` flow (`python.rs` lines 218-267): resolve the venv
interpreter; refuse when it does not exist unless `--allow-global` is
set; pick the venv interpreter or the system default; then run the
optional pip self-upgrade, the optional `-r FILE` install (refusing when
the requirements file is missing), and the optional package install,
each through `execute_secure`. -/
def pipInstall (cfg : Config) (os : Os) (w : World) (venvPath : FsPath)
    (allowGlobal upgradePip : Bool) (requirements : Option FsPath)
    (packages : Option (List String)) : Except Err Unit × World :=
  let venvPython := resolve_venv_python os.isWindows w.fs venvPath
  let usingVenv := pathExists w.fs venvPython
  if !usingVenv && !allowGlobal then
    (Except.error (Err.noVenv (renderPath venvPath)), w)
  else
    let py := if usingVenv then renderPath venvPython
              else default_python os
    andThen
      (if upgradePip then
        executeSecure cfg os w py ["-m", "pip", "install", "--upgrade", "pip"]
      else (Except.ok (), w))
      (fun w =>
        andThen
          (match requirements with
           | some req =>
              if !pathExists w.fs req then
                (Except.error (Err.requirementsNotFound (renderPath req)), w)
              else
                executeSecure cfg os w py
                  ["-m", "pip", "install", "-r", renderPath req]
           | none => (Except.ok (), w))
          (fun w =>
            match packages with
            | some pkgs =>
                executeSecure cfg os w py (["-m", "pip", "install"] ++ pkgs)
            | none => (Except.ok (), w)))

/-- The `run pytest` flow (`python.rs` lines 277-307): require the
resolved venv interpreter to exist on disk, then invoke
`python -m pytest` with the extra options and the test paths (default
`tests/`) through `execute_secure`. -/
def runPytest (cfg : Config) (os : Os) (w : World) (venvPath : FsPath)
    (addopts : Option (List String)) (tests : Option (List String)) :
    Except Err Unit × World :=
  let pyPath := resolve_venv_python os.isWindows w.fs venvPath
  if !pathExists w.fs pyPath then
    (Except.error (Err.venvPythonNotFound pyPath), w)
  else
    let args :=
      ["-m", "pytest"] ++
        (match addopts with | some os' => os' | none => []) ++
        (match tests with | some ts => ts | none => ["tests/"])
    executeSecure cfg os w (renderPath pyPath) args

/-! ## Helper lemmas -/

/-- Deleting a directory removes every path it is a prefix of,
in particular the directory itself. -/
theorem removeDirAll_not_exists (fs : FileSystem) (p q : FsPath)
    (h : p.components <+: q.components) :
    pathExists (removeDirAll fs p) q = false := by
  unfold pathExists removeDirAll
  rw [List.any_eq_false]
  intro r hr hrq
  rw [List.mem_filter] at hr
  rw [decide_eq_true_eq] at hrq
  subst hrq
  have hpre := hr.2
  rw [Bool.not_eq_true', decide_eq_false_iff_not] at hpre
  exact hpre h

/-! ## Claim theorems -/

/-- C9: `execute_raw` on the empty argument list fails with the
caller-error classification (`No command provided`) for every
configuration — dry-run included — and leaves the world untouched: no
`DRY RUN:` line is printed, no search-path lookup happens, and no
process is spawned. -/
theorem executeRaw_empty_rejected (cfg : Config) (os : Os) (w : World) :
    executeRaw cfg os w [] = (Except.error Err.noCommand, w) := rfl

/-- C8: when `dry_run` is off and the program does not resolve on the
execution search path, `execute_raw` fails with a not-found error
carrying the program name, and the world is unchanged — no spawn is
attempted. -/
theorem executeRaw_command_not_found (cfg : Config) (os : Os) (w : World)
    (prog : String) (args : List String)
    (hdry : cfg.dry_run = false) (hpath : os.onPath prog = false) :
    executeRaw cfg os w (prog :: args) =
      (Except.error (Err.commandNotFound prog), w) := by
  simp [executeRaw, hdry, hpath]

/-- Witness for C8 at a sentinel program name absent from the search
path. -/
theorem executeRaw_command_not_found_witness :
    executeRaw ⟨false, none⟩
        ⟨fun _ => false, fun _ _ => none, false⟩ ⟨[], []⟩
        ["no-such-sentinel-program", "--version"] =
      (Except.error (Err.commandNotFound "no-such-sentinel-program"),
        ⟨[], []⟩) :=
  executeRaw_command_not_found ⟨false, none⟩
    ⟨fun _ => false, fun _ _ => none, false⟩ ⟨[], []⟩
    "no-such-sentinel-program" ["--version"] rfl rfl

/-- C6: `venv ensure` on a present venv with `recreate = false` reports
success and returns the world unchanged: no filesystem change and no
interpreter invocation, so repeated calls are idempotent. -/
theorem venvEnsure_present_idempotent (cfg : Config) (os : Os)
    (w : World) (venvPath : FsPath) (python : String)
    (prompt : Option String) (hp : pathExists w.fs venvPath = true) :
    venvEnsure cfg os w venvPath python false prompt =
      (Except.ok (), w) := by
  simp [venvEnsure, hp]

/-- Witness for C6 on a present `.venv` directory. -/
theorem venvEnsure_present_idempotent_witness :
    venvEnsure ⟨false, none⟩
        ⟨fun _ => true, fun _ _ => some (some 0), false⟩
        ⟨[⟨[Component.normal ".venv"]⟩], []⟩
        ⟨[Component.normal ".venv"]⟩ "python3" false none =
      (Except.ok (), ⟨[⟨[Component.normal ".venv"]⟩], []⟩) :=
  venvEnsure_present_idempotent ⟨false, none⟩
    ⟨fun _ => true, fun _ _ => some (some 0), false⟩
    ⟨[⟨[Component.normal ".venv"]⟩], []⟩
    ⟨[Component.normal ".venv"]⟩ "python3" none rfl

/-- C7: on a non-Windows platform `resolve_venv_python` returns the
unversioned `bin/python` candidate whenever that file exists, and the
`bin/python3` candidate whenever the unversioned one is absent (in
particular when only `python3` is present).  It is a total Lean
function over the filesystem value — it cannot spawn a process or
fail. -/
theorem resolve_venv_python_prefers_unversioned (fs : FileSystem)
    (venv : FsPath) :
    (pathExists fs (pushComponent (venv_bin_dir false venv) "python")
        = true →
      resolve_venv_python false fs venv =
        pushComponent (venv_bin_dir false venv) "python") ∧
    (pathExists fs (pushComponent (venv_bin_dir false venv) "python")
        = false →
      pathExists fs (pushComponent (venv_bin_dir false venv) "python3")
        = true →
      resolve_venv_python false fs venv =
        pushComponent (venv_bin_dir false venv) "python3") := by
  refine ⟨fun h => ?_, fun h _ => ?_⟩ <;>
    simp [resolve_venv_python, h]

/-- Witness for C7: a venv with both interpreters resolves to
`bin/python`; one with only `bin/python3` resolves to `bin/python3`. -/
theorem resolve_venv_python_prefers_unversioned_witness :
    resolve_venv_python false
        [⟨[Component.normal ".venv", Component.normal "bin",
           Component.normal "python"]⟩,
         ⟨[Component.normal ".venv", Component.normal "bin",
           Component.normal "python3"]⟩]
        ⟨[Component.normal ".venv"]⟩ =
      ⟨[Component.normal ".venv", Component.normal "bin",
        Component.normal "python"]⟩ ∧
    resolve_venv_python false
        [⟨[Component.normal ".venv", Component.normal "bin",
           Component.normal "python3"]⟩]
        ⟨[Component.normal ".venv"]⟩ =
      ⟨[Component.normal ".venv", Component.normal "bin",
        Component.normal "python3"]⟩ :=
  ⟨(resolve_venv_python_prefers_unversioned _ _).1 (by decide),
   (resolve_venv_python_prefers_unversioned _ _).2 (by decide) (by decide)⟩

/-- C2: on an existing directory whose final path segment is a name
other than `.venv`, `venv remove` without `--force` fails with the
policy-violation error and returns the world unchanged (the directory
still exists), while with `--force` it recursively deletes the
directory, after which the directory no longer exists. -/
theorem venvRemove_guard_nonstandard_name (cfg : Config) (w : World)
    (p : FsPath) (name : String)
    (hex : pathExists w.fs p = true)
    (hname : fileName p = some name)
    (hne : name ≠ ".venv") :
    venvRemove cfg w p false = (Except.error (Err.refuseRemove p), w) ∧
    venvRemove cfg w p true =
      (Except.ok (),
        ⟨removeDirAll w.fs p, w.events ++ [Event.fsRemove p]⟩) ∧
    pathExists (removeDirAll w.fs p) p = false := by
  refine ⟨?_, ?_, removeDirAll_not_exists w.fs p p (List.prefix_refl _)⟩ <;>
    simp [venvRemove, guard_remove_venv, hex, hname, hne]

/-- Witness for C2 on an existing `build_cache` directory. -/
theorem venvRemove_guard_nonstandard_name_witness :
    venvRemove ⟨false, none⟩ ⟨[⟨[Component.normal "build_cache"]⟩], []⟩
        ⟨[Component.normal "build_cache"]⟩ false =
      (Except.error (Err.refuseRemove ⟨[Component.normal "build_cache"]⟩),
        ⟨[⟨[Component.normal "build_cache"]⟩], []⟩) ∧
    venvRemove ⟨false, none⟩ ⟨[⟨[Component.normal "build_cache"]⟩], []⟩
        ⟨[Component.normal "build_cache"]⟩ true =
      (Except.ok (),
        ⟨[], [Event.fsRemove ⟨[Component.normal "build_cache"]⟩]⟩) ∧
    pathExists (removeDirAll [⟨[Component.normal "build_cache"]⟩]
        ⟨[Component.normal "build_cache"]⟩)
      ⟨[Component.normal "build_cache"]⟩ = false :=
  venvRemove_guard_nonstandard_name ⟨false, none⟩
    ⟨[⟨[Component.normal "build_cache"]⟩], []⟩
    ⟨[Component.normal "build_cache"]⟩ "build_cache"
    (by decide) (by decide) (by decide)

/-- C10: on an existing path from which no final file-name component
can be extracted (`file_name()` is `none`, e.g. a path ending in `..`),
`venv remove` without `--force` skips the `.venv` naming guard entirely
and recursively deletes the path; afterwards it no longer exists. -/
theorem venvRemove_no_filename_skips_guard (cfg : Config) (w : World)
    (p : FsPath)
    (hex : pathExists w.fs p = true)
    (hname : fileName p = none) :
    venvRemove cfg w p false =
      (Except.ok (),
        ⟨removeDirAll w.fs p, w.events ++ [Event.fsRemove p]⟩) ∧
    pathExists (removeDirAll w.fs p) p = false := by
  refine ⟨?_, removeDirAll_not_exists w.fs p p (List.prefix_refl _)⟩
  simp [venvRemove, guard_remove_venv, hex, hname]

/-- Witness for C10 at the existing path `a/..` (whose `file_name()` is
`none`): it is deleted without `--force`. -/
theorem venvRemove_no_filename_skips_guard_witness :
    venvRemove ⟨false, none⟩
        ⟨[⟨[Component.normal "a", Component.parentDir]⟩], []⟩
        ⟨[Component.normal "a", Component.parentDir]⟩ false =
      (Except.ok (),
        ⟨[], [Event.fsRemove
          ⟨[Component.normal "a", Component.parentDir]⟩]⟩) ∧
    pathExists
      (removeDirAll [⟨[Component.normal "a", Component.parentDir]⟩]
        ⟨[Component.normal "a", Component.parentDir]⟩)
      ⟨[Component.normal "a", Component.parentDir]⟩ = false :=
  venvRemove_no_filename_skips_guard ⟨false, none⟩
    ⟨[⟨[Component.normal "a", Component.parentDir]⟩], []⟩
    ⟨[Component.normal "a", Component.parentDir]⟩ (by decide) (by decide)

/-- C3: `venv ensure` with `recreate = true` on a present directory
first removes it with the naming guard bypassed (`force = true` — the
theorem places no condition on the directory's name), then invokes the
interpreter through `execute_secure` to create a fresh environment at
the path; after the removal step the directory no longer exists. -/
theorem venvEnsure_recreate_removes_then_creates (cfg : Config)
    (os : Os) (w : World) (p : FsPath) (python : String)
    (prompt : Option String) (hp : pathExists w.fs p = true) :
    venvEnsure cfg os w p python true prompt =
      executeSecure cfg os
        ⟨removeDirAll w.fs p, w.events ++ [Event.fsRemove p]⟩
        python (venvCreateArgs prompt p) ∧
    pathExists (removeDirAll w.fs p) p = false := by
  refine ⟨?_, removeDirAll_not_exists w.fs p p (List.prefix_refl _)⟩
  cases hname : fileName p <;>
    simp [venvEnsure, guard_remove_venv, hp, hname]

/-- Witness for C3 on a present directory named `myenv` (not `.venv`):
recreation removes it and then spawns the interpreter to recreate
it. -/
theorem venvEnsure_recreate_removes_then_creates_witness :
    venvEnsure ⟨false, none⟩
        ⟨fun _ => true, fun _ _ => some (some 0), false⟩
        ⟨[⟨[Component.normal "myenv"]⟩], []⟩
        ⟨[Component.normal "myenv"]⟩ "python3" true none =
      executeSecure ⟨false, none⟩
        ⟨fun _ => true, fun _ _ => some (some 0), false⟩
        ⟨[], [Event.fsRemove ⟨[Component.normal "myenv"]⟩]⟩
        "python3" (venvCreateArgs none ⟨[Component.normal "myenv"]⟩) ∧
    pathExists (removeDirAll [⟨[Component.normal "myenv"]⟩]
        ⟨[Component.normal "myenv"]⟩)
      ⟨[Component.normal "myenv"]⟩ = false :=
  venvEnsure_recreate_removes_then_creates ⟨false, none⟩
    ⟨fun _ => true, fun _ _ => some (some 0), false⟩
    ⟨[⟨[Component.normal "myenv"]⟩], []⟩
    ⟨[Component.normal "myenv"]⟩ "python3" none (by decide)

/-- C1 (divergence exhibit): with `dry_run = true` in the
configuration, `venv remove` on an existing `.venv` directory still
recursively deletes it — the removal path never consults the dry-run
flag, so a filesystem mutation occurs under dry run, contradicting the
claimed no-mutation guarantee (and the command's own help text, which
says the python workflows honor `--dry-run`). -/
theorem venvRemove_dry_run_mutates_fs :
    venvRemove ⟨true, none⟩ ⟨[⟨[Component.normal ".venv"]⟩], []⟩
        ⟨[Component.normal ".venv"]⟩ false =
      (Except.ok (),
        ⟨[], [Event.fsRemove ⟨[Component.normal ".venv"]⟩]⟩) ∧
    pathExists ([⟨[Component.normal ".venv"]⟩] : FileSystem)
        ⟨[Component.normal ".venv"]⟩ = true :=
  ⟨rfl, rfl⟩

/-- An OS whose search path additionally resolves `prog` — the
environment `execute_raw` would see if the lookup on `prog` were assumed
to succeed. -/
def assumeOnPath (os : Os) (prog : String) : Os :=
  { os with onPath := fun q => decide (q = prog) || os.onPath q }

/-- C4: `execute_secure` and `execute_raw` have identical dry-run,
working-directory and exit-code semantics: for a bare (non-absolute)
command name, `execute_secure program args` equals
`execute_raw (program :: args)` outright — the search-path validation
included — while for an absolute interpreter path it equals
`execute_raw` run with the search-path lookup on that program assumed
successful, i.e. the lookup is skipped and everything else is
unchanged. -/
theorem executeSecure_refines_executeRaw (cfg : Config) (os : Os)
    (w : World) (prog : String) (args : List String) :
    executeSecure cfg os w prog args =
      if isAbsoluteProgram prog then
        executeRaw cfg (assumeOnPath os prog) w (prog :: args)
      else
        executeRaw cfg os w (prog :: args) := by
  by_cases hd : cfg.dry_run <;>
    by_cases ha : isAbsoluteProgram prog <;>
      simp [executeSecure, executeRaw, assumeOnPath, spawnAndWait,
        hd, ha]

/-- C5: when the resolved venv interpreter does not exist on disk,
`pip install` without `--allow-global` fails with the error naming the
venv path and `run pytest` fails with the error naming the expected
interpreter path, both returning the world unchanged — no
`execute_secure` call is reached, so nothing is spawned and no dry-run
line is printed; with `--allow-global`, `pip install` proceeds to
`execute_secure` using the system default interpreter. -/
theorem missing_interpreter_rejected_before_spawn (cfg : Config)
    (os : Os) (w : World) (p : FsPath) (upgradePip : Bool)
    (req : Option FsPath) (pkgs : Option (List String))
    (addopts tests : Option (List String)) (globalPkgs : List String)
    (hmiss : pathExists w.fs (resolve_venv_python os.isWindows w.fs p)
      = false) :
    pipInstall cfg os w p false upgradePip req pkgs =
      (Except.error (Err.noVenv (renderPath p)), w) ∧
    runPytest cfg os w p addopts tests =
      (Except.error
        (Err.venvPythonNotFound
          (resolve_venv_python os.isWindows w.fs p)), w) ∧
    pipInstall cfg os w p true false none (some globalPkgs) =
      executeSecure cfg os w (default_python os)
        (["-m", "pip", "install"] ++ globalPkgs) := by
  refine ⟨?_, ?_, ?_⟩ <;>
    simp [pipInstall, runPytest, andThen, hmiss]

/-- Witness for C5 on an empty filesystem (no venv at `.venv`): pip
install and pytest are rejected, and pip install with the global
override proceeds to a spawn of the system interpreter. -/
theorem missing_interpreter_rejected_before_spawn_witness :
    pipInstall ⟨false, none⟩
        ⟨fun _ => true, fun _ _ => some (some 0), false⟩ ⟨[], []⟩
        ⟨[Component.normal ".venv"]⟩ false false none
        (some ["pytest"]) =
      (Except.error (Err.noVenv ".venv"), ⟨[], []⟩) ∧
    runPytest ⟨false, none⟩
        ⟨fun _ => true, fun _ _ => some (some 0), false⟩ ⟨[], []⟩
        ⟨[Component.normal ".venv"]⟩ none none =
      (Except.error
        (Err.venvPythonNotFound
          ⟨[Component.normal ".venv", Component.normal "bin",
            Component.normal "python3"]⟩), ⟨[], []⟩) ∧
    pipInstall ⟨false, none⟩
        ⟨fun _ => true, fun _ _ => some (some 0), false⟩ ⟨[], []⟩
        ⟨[Component.normal ".venv"]⟩ true false none
        (some ["pytest"]) =
      executeSecure ⟨false, none⟩
        ⟨fun _ => true, fun _ _ => some (some 0), false⟩ ⟨[], []⟩
        "python3" ["-m", "pip", "install", "pytest"] :=
  missing_interpreter_rejected_before_spawn ⟨false, none⟩
    ⟨fun _ => true, fun _ _ => some (some 0), false⟩ ⟨[], []⟩
    ⟨[Component.normal ".venv"]⟩ false none (some ["pytest"])
    none none ["pytest"] rfl

end SafeAiUtil
